import Mathlib

/-!
Verification of the MICA result-comparison and conversion scripts.

This file gives a shallow embedding of the two Python scripts

  * src/scripts/compare-blast-results.py  (function analyzeBlastOut)
  * src/scripts/convert-blastTab-to-blastXML.py  (output-path derivation in main)

and proves or refutes the specification claims about them.

Modelling conventions:

  * A parsed result file (a Python dict mapping query id to a QueryResult) is
    modelled as an association list `ResultSet`.  The comparison code only
    ever applies `len(...)` to a hit list, so each entry stores the hit count
    directly.  Python dict keys are unique; the theorems below hold for all
    association lists, so no uniqueness hypothesis is needed.
  * The iteration `for qId in intersection` walks a Python set in an
    unspecified order.  The embedding fixes the order to be the gold-key
    order.  All quantities produced by the loop are sums and counts over the
    set, hence order-independent; the fixed order is one admissible schedule.
  * Python float arithmetic on the values `float(miss)/goldHits`, `0.1`,
    `0.2` and `1 - float(totalMiss)/totalGoldHits` is modelled with exact
    rationals.  For the integer ranges a BLAST result can hold, IEEE double
    division is correctly rounded and the comparisons against 0.1 and 0.2
    agree with the exact rational comparisons; the literal 0.1 (resp. 0.2)
    denotes the double nearest 1/10 (resp. 1/5) on both sides of each
    comparison, so the strict tests `missFrac > 0.1` and `missFrac > 0.2`
    decide exactly as the rational tests do.
  * The script raises uncaught Python exceptions: `assert miss >= 0` raises
    AssertionError and the two divisions can raise ZeroDivisionError.  These
    are the constructors of `CompError`; an exception aborts the run before
    the accuracy line is printed, which the embedding renders as
    `Except.error` (no `Report` value is produced).
-/

namespace Mica

abbrev QueryId := String

/-- One parsed result file: query id paired with the length of its hit list
(`len(gold[qId])` is the only use the comparison code makes of a hit list). -/
abbrev ResultSet := List (QueryId × Nat)

/-- The key view of a result dict (`gold.viewkeys()`). -/
def keys (rs : ResultSet) : List QueryId := rs.map Prod.fst

/-- Hit count of one query: `len(rs[qId])`.  The code only reads entries whose
key is in the intersection, where the lookup always succeeds; the default 0 is
dead. -/
def hitCount (rs : ResultSet) (q : QueryId) : Nat := (rs.lookup q).getD 0

/-- Line 20 of compare-blast-results.py:
`intersection = gold.viewkeys() & comp.viewkeys()`, iterated in gold-key
order. -/
def intersection (gold comp : ResultSet) : List QueryId :=
  (keys gold).filter (fun q => (keys comp).contains q)

/-- The uncaught Python exceptions the script can raise while comparing:
`assert miss >= 0` (line 32) raises AssertionError, and the divisions on
lines 37 and 46 raise ZeroDivisionError.  Neither carries a query id. -/
inductive CompError where
  | assertionError
  | zeroDivisionError
  deriving DecidableEq

/-- The loop accumulators of analyzeBlastOut (lines 22 to 26). -/
structure Tally where
  totalMiss : Int
  totalGoldHits : Nat
  perfectQueries : Nat
  badQueries : Nat
  veryBadQueries : Nat
  deriving DecidableEq

/-- The seven quantities printed on lines 43 to 49, as one value.  The code
prints them only when no exception was raised, so the embedding produces the
record exactly in that case. -/
structure Report where
  queryCount : Nat
  totalMiss : Int
  totalGoldHits : Nat
  overallAccuracy : Rat
  perfectQueryCount : Nat
  queriesAbove90 : Nat
  queriesAbove80 : Nat
  deriving DecidableEq

/-- The body of the `for qId in intersection` loop (lines 27 to 41):
accumulate gold hits, compute `miss`, assert it is nonnegative, accumulate
misses and the perfect counter, then compute `missFrac = float(miss)/goldHits`
(ZeroDivisionError when `goldHits` is 0) and classify against 0.1 and 0.2. -/
def processQuery (gold comp : ResultSet) (acc : Tally) (qId : QueryId) :
    Except CompError Tally :=
  let goldHits := hitCount gold qId
  let totalGoldHits := acc.totalGoldHits + goldHits
  let miss : Int := (goldHits : Int) - (hitCount comp qId : Int)
  if miss < 0 then Except.error CompError.assertionError
  else
    let totalMiss := acc.totalMiss + miss
    let perfectQueries := if miss = 0 then acc.perfectQueries + 1 else acc.perfectQueries
    if goldHits = 0 then Except.error CompError.zeroDivisionError
    else
      let missFrac : Rat := (miss : Rat) / (goldHits : Rat)
      let badQueries := if missFrac > 1/10 then acc.badQueries + 1 else acc.badQueries
      let veryBadQueries := if missFrac > 1/5 then acc.veryBadQueries + 1 else acc.veryBadQueries
      Except.ok ⟨totalMiss, totalGoldHits, perfectQueries, badQueries, veryBadQueries⟩

/-- analyzeBlastOut (lines 18 to 49): run the loop over the intersection and
render the report.  The final `1 - float(totalMiss)/totalGoldHits` (line 46)
raises ZeroDivisionError when `totalGoldHits` is 0, which happens exactly when
the intersection is empty (a nonempty intersection with only zero-hit gold
queries already raised inside the loop). -/
def analyzeBlastOut (gold comp : ResultSet) : Except CompError Report :=
  let inter := intersection gold comp
  match inter.foldlM (processQuery gold comp) ⟨0, 0, 0, 0, 0⟩ with
  | Except.error e => Except.error e
  | Except.ok acc =>
    if acc.totalGoldHits = 0 then Except.error CompError.zeroDivisionError
    else Except.ok
      { queryCount := inter.length
        totalMiss := acc.totalMiss
        totalGoldHits := acc.totalGoldHits
        overallAccuracy := 1 - (acc.totalMiss : Rat) / (acc.totalGoldHits : Rat)
        perfectQueryCount := acc.perfectQueries
        queriesAbove90 := inter.length - acc.badQueries
        queriesAbove80 := inter.length - acc.veryBadQueries }

/-- Python `str.split` restricted to the separator ".", as used on line 9 of
convert-blastTab-to-blastXML.py; `"a.b.txt".split(".")` gives
`["a", "b", "txt"]` and the empty string splits to `[""]`. -/
def pySplitDot : List Char → List (List Char)
  | [] => [[]]
  | c :: cs =>
    match pySplitDot cs with
    | [] => [[c]]
    | h :: t => if c = '.' then [] :: h :: t else (c :: h) :: t

/-- Line 9 of convert-blastTab-to-blastXML.py:
`filenameRoot = args[1].split(".")[0]`. -/
def filenameRoot (input : List Char) : List Char := (pySplitDot input).headD []

/-- Line 10 of convert-blastTab-to-blastXML.py:
`filenameXML = filenameRoot + ".xml"` in the one-argument case, where the
output path is omitted. -/
def filenameXML (input : List Char) : List Char := filenameRoot input ++ ".xml".toList

/-! Derived per-query quantities used to state the loop invariants. -/

/-- The per-query value `miss = len(gold[qId]) - len(comp[qId])` (line 31). -/
def missOf (gold comp : ResultSet) (q : QueryId) : Int :=
  (hitCount gold q : Int) - (hitCount comp q : Int)

/-- The per-query value `missFrac = float(miss)/goldHits` (line 37), as an
exact rational. -/
def missFrac (gold comp : ResultSet) (q : QueryId) : Rat :=
  (missOf gold comp q : Rat) / (hitCount gold q : Rat)

/-- Total gold hits over a list of queries. -/
def sumGold (gold : ResultSet) (S : List QueryId) : Nat :=
  (S.map (hitCount gold)).sum

/-- Total misses over a list of queries. -/
def sumMiss (gold comp : ResultSet) (S : List QueryId) : Int :=
  (S.map (missOf gold comp)).sum

/-- Number of queries with `miss == 0`. -/
def countPerfect (gold comp : ResultSet) : List QueryId → Nat
  | [] => 0
  | q :: S => (if missOf gold comp q = 0 then 1 else 0) + countPerfect gold comp S

/-- Number of queries with `missFrac > 0.1`. -/
def countBad (gold comp : ResultSet) : List QueryId → Nat
  | [] => 0
  | q :: S => (if missFrac gold comp q > 1/10 then 1 else 0) + countBad gold comp S

/-- Number of queries with `missFrac > 0.2`. -/
def countVeryBad (gold comp : ResultSet) : List QueryId → Nat
  | [] => 0
  | q :: S => (if missFrac gold comp q > 1/5 then 1 else 0) + countVeryBad gold comp S

/-- A query the loop body passes without raising: the candidate does not
exceed gold (the assert holds) and gold has at least one hit (the division
succeeds). -/
def goodQuery (gold comp : ResultSet) (q : QueryId) : Prop :=
  hitCount comp q ≤ hitCount gold q ∧ 0 < hitCount gold q

/-! Basic reductions for the Except monad. -/

theorem ok_bind {e a b : Type} (x : a) (f : a → Except e b) :
    (Except.ok x >>= f : Except e b) = f x := rfl

theorem error_bind {e a b : Type} (err : e) (f : a → Except e b) :
    (Except.error err >>= f : Except e b) = Except.error err := rfl

theorem pure_eq_ok {e a : Type} (x : a) : (pure x : Except e a) = Except.ok x := rfl

/-! Behaviour of one loop iteration. -/

/-- A good query neither trips the assert nor divides by zero, and updates
each accumulator additively. -/
theorem processQuery_ok (gold comp : ResultSet) (acc : Tally) (q : QueryId)
    (h : goodQuery gold comp q) :
    processQuery gold comp acc q = Except.ok
      ⟨acc.totalMiss + missOf gold comp q,
       acc.totalGoldHits + hitCount gold q,
       acc.perfectQueries + (if missOf gold comp q = 0 then 1 else 0),
       acc.badQueries + (if missFrac gold comp q > 1/10 then 1 else 0),
       acc.veryBadQueries + (if missFrac gold comp q > 1/5 then 1 else 0)⟩ := by
  obtain ⟨hc, hg⟩ := h
  have h1 : ¬ ((hitCount gold q : Int) - (hitCount comp q : Int) < 0) := by omega
  have h2 : ¬ (hitCount gold q = 0) := by omega
  simp only [processQuery, missOf, missFrac, if_neg h1, if_neg h2]
  split_ifs <;> rfl

/-- A query whose candidate hit count exceeds gold makes the loop body raise
the AssertionError of line 32. -/
theorem processQuery_err_assert (gold comp : ResultSet) (acc : Tally) (q : QueryId)
    (h : hitCount gold q < hitCount comp q) :
    processQuery gold comp acc q = Except.error CompError.assertionError := by
  have h1 : (hitCount gold q : Int) - (hitCount comp q : Int) < 0 := by omega
  simp only [processQuery, if_pos h1]

/-- A query with zero gold hits (and a candidate count not exceeding it) makes
the loop body raise ZeroDivisionError at `float(miss)/goldHits` (line 37). -/
theorem processQuery_err_zdiv (gold comp : ResultSet) (acc : Tally) (q : QueryId)
    (hc : hitCount comp q ≤ hitCount gold q) (hg : hitCount gold q = 0) :
    processQuery gold comp acc q = Except.error CompError.zeroDivisionError := by
  have h1 : ¬ ((hitCount gold q : Int) - (hitCount comp q : Int) < 0) := by omega
  simp only [processQuery, if_neg h1, if_pos hg]

/-- A query that is not good makes the loop body raise some exception. -/
theorem processQuery_err (gold comp : ResultSet) (acc : Tally) (q : QueryId)
    (h : ¬ goodQuery gold comp q) :
    ∃ e, processQuery gold comp acc q = Except.error e := by
  by_cases hlt : hitCount gold q < hitCount comp q
  · exact ⟨_, processQuery_err_assert gold comp acc q hlt⟩
  · have hc : hitCount comp q ≤ hitCount gold q := not_lt.mp hlt
    have hg : hitCount gold q = 0 := by
      by_contra hne
      exact h ⟨hc, Nat.pos_of_ne_zero hne⟩
    exact ⟨_, processQuery_err_zdiv gold comp acc q hc hg⟩

/-! Behaviour of the whole loop. -/

/-- When every query in the list is good, the loop completes and the final
accumulators are the initial ones plus sums and counts over the list. -/
theorem foldlM_ok (gold comp : ResultSet) (S : List QueryId) (acc : Tally)
    (h : ∀ q ∈ S, goodQuery gold comp q) :
    S.foldlM (processQuery gold comp) acc = Except.ok
      ⟨acc.totalMiss + sumMiss gold comp S,
       acc.totalGoldHits + sumGold gold S,
       acc.perfectQueries + countPerfect gold comp S,
       acc.badQueries + countBad gold comp S,
       acc.veryBadQueries + countVeryBad gold comp S⟩ := by
  induction S generalizing acc with
  | nil =>
    simp only [List.foldlM_nil, sumMiss, sumGold, countPerfect, countBad, countVeryBad,
      List.map_nil, List.sum_nil, add_zero]
    rfl
  | cons q S ih =>
    rw [List.foldlM_cons, processQuery_ok gold comp acc q (h q (by simp))]
    simp only [ok_bind]
    rw [ih _ (fun p hp => h p (by simp [hp]))]
    simp [sumMiss, sumGold, countPerfect, countBad, countVeryBad, add_assoc]

/-- When some query in the list is not good, the loop raises. -/
theorem foldlM_err (gold comp : ResultSet) (S : List QueryId) (acc : Tally)
    (h : ∃ q ∈ S, ¬ goodQuery gold comp q) :
    ∃ e, S.foldlM (processQuery gold comp) acc = Except.error e := by
  induction S generalizing acc with
  | nil => simp at h
  | cons q S ih =>
    obtain ⟨p, hp, hbad⟩ := h
    by_cases hq : goodQuery gold comp q
    · rw [List.foldlM_cons, processQuery_ok gold comp acc q hq]
      simp only [ok_bind]
      apply ih
      rcases List.mem_cons.mp hp with rfl | hmem
      · exact absurd hq hbad
      · exact ⟨p, hmem, hbad⟩
    · obtain ⟨e, he⟩ := processQuery_err gold comp acc q hq
      exact ⟨e, by rw [List.foldlM_cons, he, error_bind]⟩

/-! Characterization of analyzeBlastOut. -/

/-- If some query of the intersection is not good, the comparison aborts with
an exception. -/
theorem analyze_err_of_not_good (gold comp : ResultSet)
    (h : ¬ ∀ q ∈ intersection gold comp, goodQuery gold comp q) :
    ∃ e, analyzeBlastOut gold comp = Except.error e := by
  push_neg at h
  obtain ⟨e, he⟩ := foldlM_err gold comp (intersection gold comp) ⟨0, 0, 0, 0, 0⟩ h
  exact ⟨e, by simp [analyzeBlastOut, he]⟩

/-- When every query of the intersection is good and the total gold hit count
is nonzero, the comparison succeeds and the report is given by sums and counts
over the intersection. -/
theorem analyze_ok_intro (gold comp : ResultSet)
    (hgood : ∀ q ∈ intersection gold comp, goodQuery gold comp q)
    (hne : sumGold gold (intersection gold comp) ≠ 0) :
    analyzeBlastOut gold comp = Except.ok
      ⟨(intersection gold comp).length,
       sumMiss gold comp (intersection gold comp),
       sumGold gold (intersection gold comp),
       1 - (sumMiss gold comp (intersection gold comp) : Rat) /
         (sumGold gold (intersection gold comp) : Rat),
       countPerfect gold comp (intersection gold comp),
       (intersection gold comp).length - countBad gold comp (intersection gold comp),
       (intersection gold comp).length - countVeryBad gold comp (intersection gold comp)⟩ := by
  simp only [analyzeBlastOut,
    foldlM_ok gold comp (intersection gold comp) ⟨0, 0, 0, 0, 0⟩ hgood, zero_add]
  rw [if_neg hne]

/-- Conversely, a successful comparison forces every query of the intersection
to be good, a nonzero total gold hit count, and the explicit report value. -/
theorem analyze_ok_elim (gold comp : ResultSet) (r : Report)
    (h : analyzeBlastOut gold comp = Except.ok r) :
    (∀ q ∈ intersection gold comp, goodQuery gold comp q) ∧
    sumGold gold (intersection gold comp) ≠ 0 ∧
    r = ⟨(intersection gold comp).length,
         sumMiss gold comp (intersection gold comp),
         sumGold gold (intersection gold comp),
         1 - (sumMiss gold comp (intersection gold comp) : Rat) /
           (sumGold gold (intersection gold comp) : Rat),
         countPerfect gold comp (intersection gold comp),
         (intersection gold comp).length - countBad gold comp (intersection gold comp),
         (intersection gold comp).length - countVeryBad gold comp (intersection gold comp)⟩ := by
  have hgood : ∀ q ∈ intersection gold comp, goodQuery gold comp q := by
    by_contra hng
    obtain ⟨e, he⟩ := analyze_err_of_not_good gold comp hng
    rw [he] at h
    exact absurd h (by simp)
  have hne : sumGold gold (intersection gold comp) ≠ 0 := by
    intro h0
    have he : analyzeBlastOut gold comp = Except.error CompError.zeroDivisionError := by
      simp only [analyzeBlastOut,
        foldlM_ok gold comp (intersection gold comp) ⟨0, 0, 0, 0, 0⟩ hgood, zero_add]
      rw [if_pos h0]
    rw [he] at h
    exact absurd h (by simp)
  refine ⟨hgood, hne, ?_⟩
  have hi := analyze_ok_intro gold comp hgood hne
  rw [h] at hi
  exact Except.ok.inj hi

/-! Arithmetic facts about the sums and counts. -/

/-- All the misses are nonnegative when every query is good. -/
theorem sumMiss_nonneg (gold comp : ResultSet) (S : List QueryId)
    (h : ∀ q ∈ S, goodQuery gold comp q) : 0 ≤ sumMiss gold comp S := by
  induction S with
  | nil => simp [sumMiss]
  | cons q S ih =>
    have h0 : 0 ≤ missOf gold comp q := by
      have := (h q (by simp)).1
      simp only [missOf]
      omega
    have h1 := ih (fun p hp => h p (by simp [hp]))
    simp only [sumMiss, List.map_cons, List.sum_cons] at *
    omega

/-- The total miss count never exceeds the total gold hit count. -/
theorem sumMiss_le_sumGold (gold comp : ResultSet) (S : List QueryId) :
    sumMiss gold comp S ≤ (sumGold gold S : Int) := by
  induction S with
  | nil => simp [sumMiss, sumGold]
  | cons q S ih =>
    simp only [sumMiss, sumGold, List.map_cons, List.sum_cons, missOf, Nat.cast_add] at *
    omega

/-- Identical result sets give a zero miss for each query. -/
theorem missOf_self (A : ResultSet) (q : QueryId) : missOf A A q = 0 := by
  simp [missOf]

/-- A sum of misses over queries that all miss nothing is zero. -/
theorem sumMiss_eq_zero (gold comp : ResultSet) (S : List QueryId)
    (h : ∀ q ∈ S, missOf gold comp q = 0) : sumMiss gold comp S = 0 := by
  induction S with
  | nil => simp [sumMiss]
  | cons q S ih =>
    have h1 := ih (fun p hp => h p (by simp [hp]))
    simp only [sumMiss, List.map_cons, List.sum_cons, h q (by simp)] at *
    omega

/-- Queries that all miss nothing are all counted perfect. -/
theorem countPerfect_eq_length (gold comp : ResultSet) (S : List QueryId)
    (h : ∀ q ∈ S, missOf gold comp q = 0) :
    countPerfect gold comp S = S.length := by
  induction S with
  | nil => rfl
  | cons q S ih =>
    have h1 := ih (fun p hp => h p (by simp [hp]))
    simp [countPerfect, h q (by simp), h1]
    omega

/-- A zero total gold hit count forces every per-query gold count to zero. -/
theorem sumGold_eq_zero (gold : ResultSet) (S : List QueryId)
    (h : sumGold gold S = 0) : ∀ q ∈ S, hitCount gold q = 0 := by
  induction S with
  | nil => simp
  | cons q S ih =>
    simp only [sumGold, List.map_cons, List.sum_cons] at h
    intro p hp
    rcases List.mem_cons.mp hp with rfl | hmem
    · omega
    · exact ih (by simp only [sumGold]; omega) p hmem

/-- A nonempty list of queries with positive gold counts has a positive total. -/
theorem sumGold_ne_zero (gold : ResultSet) (S : List QueryId) (hS : S ≠ [])
    (h : ∀ q ∈ S, 0 < hitCount gold q) : sumGold gold S ≠ 0 := by
  cases S with
  | nil => exact absurd rfl hS
  | cons q S =>
    have := h q (by simp)
    simp only [sumGold, List.map_cons, List.sum_cons]
    omega

/-- The bad-query count never exceeds the number of queries. -/
theorem countBad_le_length (gold comp : ResultSet) (S : List QueryId) :
    countBad gold comp S ≤ S.length := by
  induction S with
  | nil => simp [countBad]
  | cons q S ih =>
    simp only [countBad, List.length_cons]
    split_ifs <;> omega

/-- The very-bad-query count never exceeds the number of queries. -/
theorem countVeryBad_le_length (gold comp : ResultSet) (S : List QueryId) :
    countVeryBad gold comp S ≤ S.length := by
  induction S with
  | nil => simp [countVeryBad]
  | cons q S ih =>
    simp only [countVeryBad, List.length_cons]
    split_ifs <;> omega

/-- Missing more than 20 percent implies missing more than 10 percent, so the
very-bad count is below the bad count. -/
theorem countVeryBad_le_countBad (gold comp : ResultSet) (S : List QueryId) :
    countVeryBad gold comp S ≤ countBad gold comp S := by
  induction S with
  | nil => simp [countVeryBad, countBad]
  | cons q S ih =>
    simp only [countVeryBad, countBad]
    by_cases h5 : missFrac gold comp q > 1/5
    · have h10 : missFrac gold comp q > 1/10 := lt_trans (by norm_num) h5
      rw [if_pos h5, if_pos h10]
      omega
    · rw [if_neg h5]
      split_ifs <;> omega

/-- A perfect query is never a bad query, so the two counts fit together in
the query total. -/
theorem countPerfect_add_countBad_le_length (gold comp : ResultSet) (S : List QueryId) :
    countPerfect gold comp S + countBad gold comp S ≤ S.length := by
  induction S with
  | nil => simp [countPerfect, countBad]
  | cons q S ih =>
    simp only [countPerfect, countBad, List.length_cons]
    by_cases hm : missOf gold comp q = 0
    · have hf : ¬ (missFrac gold comp q > 1/10) := by
        simp only [missFrac, hm]
        norm_num
      rw [if_pos hm, if_neg hf]
      omega
    · rw [if_neg hm]
      split_ifs <;> omega

/-! Facts about the intersection. -/

/-- The intersection of a result set with itself is its own key list. -/
theorem intersection_self (A : ResultSet) : intersection A A = keys A := by
  rw [intersection, List.filter_eq_self]
  intro a ha
  simpa using ha

/-- A result set whose keys exhaust the gold key list yields the gold key
list as intersection. -/
theorem intersection_eq_keys (gold comp : ResultSet)
    (h : ∀ k, k ∈ keys comp ↔ k ∈ keys gold) :
    intersection gold comp = keys gold := by
  rw [intersection, List.filter_eq_self]
  intro a ha
  simpa using (h a).mpr ha

/-- Disjoint key sets yield an empty intersection. -/
theorem intersection_eq_nil (gold comp : ResultSet)
    (h : ∀ k, k ∈ keys gold → k ∉ keys comp) :
    intersection gold comp = [] := by
  rw [intersection, List.filter_eq_nil_iff]
  intro a ha
  simpa using h a ha

/-- Pointwise larger candidates give a pointwise smaller total miss. -/
theorem sumMiss_mono (gold c1 c2 : ResultSet) (S : List QueryId)
    (h : ∀ q ∈ S, hitCount c1 q ≤ hitCount c2 q) :
    sumMiss gold c2 S ≤ sumMiss gold c1 S := by
  induction S with
  | nil => simp [sumMiss]
  | cons q S ih =>
    have h0 := h q (by simp)
    have h1 := ih (fun p hp => h p (by simp [hp]))
    simp only [sumMiss, List.map_cons, List.sum_cons, missOf] at *
    omega

/-! Facts about the split used by the conversion script. -/

/-- Python str.split never returns an empty list. -/
theorem pySplitDot_ne_nil (cs : List Char) : pySplitDot cs ≠ [] := by
  cases cs with
  | nil => simp [pySplitDot]
  | cons c cs =>
    cases h : pySplitDot cs with
    | nil => simp [pySplitDot, h]
    | cons hd tl =>
      simp only [pySplitDot, h]
      split_ifs <;> simp

/-- The first piece of the dot split is the prefix of the input before its
first dot. -/
theorem filenameRoot_eq_takeWhile (cs : List Char) :
    filenameRoot cs = cs.takeWhile (fun c => c != '.') := by
  induction cs with
  | nil => rfl
  | cons c cs ih =>
    cases h : pySplitDot cs with
    | nil => exact absurd h (pySplitDot_ne_nil cs)
    | cons hd tl =>
      have hhd : hd = filenameRoot cs := by rw [filenameRoot, h]; rfl
      by_cases hc : c = '.'
      · subst hc
        simp only [filenameRoot, pySplitDot, h, if_pos rfl]
        simp [List.takeWhile_cons]
      · simp only [filenameRoot, pySplitDot, h, if_neg hc]
        simp [List.takeWhile_cons, hc, hhd, ih]

/-! Concrete runs used by the witnesses below. -/

/-- Evaluation of the comparison on gold Q1 with 10 hits against a candidate
with 9 hits. -/
theorem analyzeEvalA :
    analyzeBlastOut [("Q1", 10)] [("Q1", 9)] = Except.ok ⟨1, 1, 10, 9/10, 0, 1, 1⟩ := by
  have hg : hitCount [("Q1", 10)] "Q1" = 10 := by decide
  have hc : hitCount [("Q1", 9)] "Q1" = 9 := by decide
  have hI : intersection [("Q1", 10)] [("Q1", 9)] = ["Q1"] := by decide
  have e1 : processQuery [("Q1", 10)] [("Q1", 9)] ⟨0, 0, 0, 0, 0⟩ "Q1" =
      Except.ok ⟨1, 10, 0, 0, 0⟩ := by
    norm_num [processQuery, hg, hc]
  rw [analyzeBlastOut, hI, List.foldlM_cons, e1, ok_bind, List.foldlM_nil, pure_eq_ok]
  norm_num

/-- Evaluation of the comparison on gold Q1 with 10 hits against a candidate
with 8 hits. -/
theorem analyzeEvalB :
    analyzeBlastOut [("Q1", 10)] [("Q1", 8)] = Except.ok ⟨1, 2, 10, 4/5, 0, 0, 1⟩ := by
  have hg : hitCount [("Q1", 10)] "Q1" = 10 := by decide
  have hc : hitCount [("Q1", 8)] "Q1" = 8 := by decide
  have hI : intersection [("Q1", 10)] [("Q1", 8)] = ["Q1"] := by decide
  have e1 : processQuery [("Q1", 10)] [("Q1", 8)] ⟨0, 0, 0, 0, 0⟩ "Q1" =
      Except.ok ⟨2, 10, 0, 1, 0⟩ := by
    norm_num [processQuery, hg, hc]
  rw [analyzeBlastOut, hI, List.foldlM_cons, e1, ok_bind, List.foldlM_nil, pure_eq_ok]
  norm_num

/-! The claims. -/

/-- Claim C1: on gold = Q1 with 10 hits, Q2 with 4 hits, and candidate = Q1
with 9 hits, Q2 with 4 hits, the comparison succeeds with queryCount 2,
totalMiss 1, totalGoldHits 14, overallAccuracy 13/14, perfectQueryCount 1,
queriesAbove90Pct 2 and queriesAbove80Pct 2; in particular Q1, which misses
exactly 10 percent of its gold hits, is counted among the queries above 90
percent, so the boundary is inclusive. -/
theorem claim1_end_to_end :
    analyzeBlastOut [("Q1", 10), ("Q2", 4)] [("Q1", 9), ("Q2", 4)] =
      Except.ok ⟨2, 1, 14, 13/14, 1, 2, 2⟩ := by
  have hg1 : hitCount [("Q1", 10), ("Q2", 4)] "Q1" = 10 := by decide
  have hg2 : hitCount [("Q1", 10), ("Q2", 4)] "Q2" = 4 := by decide
  have hc1 : hitCount [("Q1", 9), ("Q2", 4)] "Q1" = 9 := by decide
  have hc2 : hitCount [("Q1", 9), ("Q2", 4)] "Q2" = 4 := by decide
  have hI : intersection [("Q1", 10), ("Q2", 4)] [("Q1", 9), ("Q2", 4)] = ["Q1", "Q2"] := by
    decide
  have e1 : processQuery [("Q1", 10), ("Q2", 4)] [("Q1", 9), ("Q2", 4)] ⟨0, 0, 0, 0, 0⟩ "Q1" =
      Except.ok ⟨1, 10, 0, 0, 0⟩ := by
    norm_num [processQuery, hg1, hc1]
  have e2 : processQuery [("Q1", 10), ("Q2", 4)] [("Q1", 9), ("Q2", 4)] ⟨1, 10, 0, 0, 0⟩ "Q2" =
      Except.ok ⟨1, 14, 1, 0, 0⟩ := by
    norm_num [processQuery, hg2, hc2]
  rw [analyzeBlastOut, hI, List.foldlM_cons, e1, ok_bind, List.foldlM_cons, e2, ok_bind,
    List.foldlM_nil, pure_eq_ok]
  norm_num

/-- Claim C2, counterexample: a query in scope with an empty gold hit list
makes the comparison fail, at the division `float(miss)/goldHits` of line 37,
instead of treating missFraction as 0 and proceeding. -/
theorem claim2_counterexample :
    analyzeBlastOut [("Q1", 0)] [("Q1", 0)] = Except.error CompError.zeroDivisionError := rfl

/-- Claim C2 as amended: whenever some query of the comparison scope has an
empty gold hit list, the comparison fails with an exception (ZeroDivisionError
at the missFraction division, or AssertionError earlier when some candidate
count exceeds its gold count); it does not proceed normally. -/
theorem claim2_zero_gold_causes_failure (gold comp : ResultSet)
    (h : ∃ q ∈ intersection gold comp, hitCount gold q = 0) :
    ∃ e, analyzeBlastOut gold comp = Except.error e := by
  obtain ⟨q, hq, hg0⟩ := h
  apply analyze_err_of_not_good
  intro hall
  have := (hall q hq).2
  omega

/-- Witness for claim C2 as amended, at a concrete input. -/
theorem claim2_witness : ∃ e, analyzeBlastOut [("Q2", 0)] [("Q2", 0)] = Except.error e :=
  claim2_zero_gold_causes_failure [("Q2", 0)] [("Q2", 0)] ⟨"Q2", by decide, by decide⟩

/-- Claim C3, counterexample: on disjoint key sets the comparison does fail,
but with the generic ZeroDivisionError of the final accuracy division, the
very same error value an overlapping pair can produce, so the failure does not
identify a distinguished NoOverlap condition. -/
theorem claim3_counterexample :
    analyzeBlastOut [("Q1", 1)] [("Q2", 1)] = Except.error CompError.zeroDivisionError ∧
    analyzeBlastOut [("Q3", 0)] [("Q3", 0)] = Except.error CompError.zeroDivisionError :=
  ⟨rfl, rfl⟩

/-- Claim C3 as amended: for disjoint key sets the comparison fails with a
ZeroDivisionError raised by `1 - float(totalMiss)/totalGoldHits` on line 46
(not a dedicated NoOverlap error), and no accuracy figure is produced. -/
theorem claim3_no_overlap_behavior (gold comp : ResultSet)
    (h : ∀ k, k ∈ keys gold → k ∉ keys comp) :
    analyzeBlastOut gold comp = Except.error CompError.zeroDivisionError := by
  have hS := intersection_eq_nil gold comp h
  simp [analyzeBlastOut, hS, List.foldlM_nil, pure_eq_ok]

/-- Witness for claim C3 as amended, at a concrete input. -/
theorem claim3_witness :
    analyzeBlastOut [("G1", 3)] [("H1", 4)] = Except.error CompError.zeroDivisionError :=
  claim3_no_overlap_behavior [("G1", 3)] [("H1", 4)] (by decide)

/-- Claim C4, counterexample: a candidate exceeding gold trips the bare
`assert miss >= 0` of line 32; the resulting error value is the same for two
inputs whose offending queries differ, so it carries no query id. -/
theorem claim4_counterexample :
    analyzeBlastOut [("B", 5)] [("B", 6)] = Except.error CompError.assertionError ∧
    analyzeBlastOut [("C", 2)] [("C", 7)] = Except.error CompError.assertionError :=
  ⟨rfl, rfl⟩

/-- Claim C4 as amended: when some query in scope has a candidate hit count
strictly above its gold hit count the comparison fails with an exception (an
AssertionError carrying no query id, or a ZeroDivisionError if an earlier
query has zero gold hits), and a successful comparison never reports a
negative total miss count. -/
theorem claim4_candidate_exceeds_gold (gold comp : ResultSet) :
    ((∃ q ∈ intersection gold comp, hitCount gold q < hitCount comp q) →
      ∃ e, analyzeBlastOut gold comp = Except.error e) ∧
    (∀ r, analyzeBlastOut gold comp = Except.ok r → 0 ≤ r.totalMiss) := by
  constructor
  · rintro ⟨q, hq, hlt⟩
    apply analyze_err_of_not_good
    intro hall
    have := (hall q hq).1
    omega
  · intro r hr
    obtain ⟨hgood, hne, hr2⟩ := analyze_ok_elim gold comp r hr
    rw [hr2]
    exact sumMiss_nonneg gold comp (intersection gold comp) hgood

/-- Witness for claim C4 as amended, at a concrete input. -/
theorem claim4_witness : ∃ e, analyzeBlastOut [("D", 1)] [("D", 3)] = Except.error e :=
  (claim4_candidate_exceeds_gold [("D", 1)] [("D", 3)]).1 ⟨"D", by decide, by decide⟩

/-- Claim C5, counterexample: with a comparison scope whose accumulated gold
hit count is 0, the comparison crashes on a division (ZeroDivisionError)
instead of failing with a dedicated EmptyGoldStandard error before dividing. -/
theorem claim5_counterexample :
    sumGold [("Q1", 0), ("Q2", 0)]
        (intersection [("Q1", 0), ("Q2", 0)] [("Q1", 0), ("Q2", 0)]) = 0 ∧
    analyzeBlastOut [("Q1", 0), ("Q2", 0)] [("Q1", 0), ("Q2", 0)] =
      Except.error CompError.zeroDivisionError :=
  ⟨by decide, rfl⟩

/-- Claim C5 as amended: whenever the accumulated gold hit count over the
comparison scope is 0, the comparison fails by raising ZeroDivisionError at a
division (the per-query missFraction division when the scope is nonempty, the
final accuracy division when it is empty), or AssertionError when the first
scoped query also has a positive candidate count; no accuracy is reported. -/
theorem claim5_empty_gold_behavior (gold comp : ResultSet)
    (h : sumGold gold (intersection gold comp) = 0) :
    analyzeBlastOut gold comp = Except.error CompError.zeroDivisionError ∨
    analyzeBlastOut gold comp = Except.error CompError.assertionError := by
  have hz := sumGold_eq_zero gold (intersection gold comp) h
  cases hSc : intersection gold comp with
  | nil =>
    left
    simp [analyzeBlastOut, hSc, List.foldlM_nil, pure_eq_ok]
  | cons q S =>
    have hq0 : hitCount gold q = 0 := hz q (by rw [hSc]; simp)
    by_cases hc : hitCount comp q = 0
    · left
      have hpe := processQuery_err_zdiv gold comp ⟨0, 0, 0, 0, 0⟩ q (by omega) hq0
      simp [analyzeBlastOut, hSc, List.foldlM_cons, hpe, error_bind]
    · right
      have hpe := processQuery_err_assert gold comp ⟨0, 0, 0, 0, 0⟩ q (by omega)
      simp [analyzeBlastOut, hSc, List.foldlM_cons, hpe, error_bind]

/-- Witness for claim C5 as amended, at a concrete input. -/
theorem claim5_witness :
    analyzeBlastOut [("Z", 0)] [("Z", 0)] = Except.error CompError.zeroDivisionError ∨
    analyzeBlastOut [("Z", 0)] [("Z", 0)] = Except.error CompError.assertionError :=
  claim5_empty_gold_behavior [("Z", 0)] [("Z", 0)] (by decide)

/-- Claim C6, counterexample: comparing the empty result set against itself
does not succeed; it raises ZeroDivisionError at the final accuracy division,
so self-comparison is not always a success. -/
theorem claim6_counterexample :
    analyzeBlastOut ([] : ResultSet) ([] : ResultSet) =
      Except.error CompError.zeroDivisionError := rfl

/-- Claim C6 as amended: for every nonempty result set in which every query
has at least one hit, self-comparison succeeds with overallAccuracy 1,
totalMiss 0 and perfectQueryCount equal to queryCount.  (Self-comparison of an
empty result set, or of one containing a zero-hit query, raises
ZeroDivisionError instead.) -/
theorem claim6_self_comparison (A : ResultSet) (hne : A ≠ [])
    (hpos : ∀ q ∈ keys A, 0 < hitCount A q) :
    ∃ r, analyzeBlastOut A A = Except.ok r ∧ r.overallAccuracy = 1 ∧
      r.totalMiss = 0 ∧ r.perfectQueryCount = r.queryCount := by
  have hS := intersection_self A
  have hgood : ∀ q ∈ intersection A A, goodQuery A A q := by
    rw [hS]
    intro q hq
    exact ⟨le_refl _, hpos q hq⟩
  have hmiss : ∀ q ∈ intersection A A, missOf A A q = 0 := fun q _ => missOf_self A q
  have hkeys : keys A ≠ [] := by
    simpa [keys] using hne
  have hne2 : sumGold A (intersection A A) ≠ 0 := by
    rw [hS]
    exact sumGold_ne_zero A (keys A) hkeys hpos
  refine ⟨_, analyze_ok_intro A A hgood hne2, ?_, ?_, ?_⟩
  · show 1 - (sumMiss A A (intersection A A) : Rat) /
      (sumGold A (intersection A A) : Rat) = 1
    rw [sumMiss_eq_zero A A (intersection A A) hmiss]
    norm_num
  · show sumMiss A A (intersection A A) = 0
    exact sumMiss_eq_zero A A (intersection A A) hmiss
  · show countPerfect A A (intersection A A) = (intersection A A).length
    exact countPerfect_eq_length A A (intersection A A) hmiss

/-- Witness for claim C6 as amended, at a concrete input. -/
theorem claim6_witness :
    ∃ r, analyzeBlastOut [("W", 3)] [("W", 3)] = Except.ok r ∧ r.overallAccuracy = 1 ∧
      r.totalMiss = 0 ∧ r.perfectQueryCount = r.queryCount :=
  claim6_self_comparison [("W", 3)] (by decide) (by decide)

/-- Claim C7: for candidates sharing the query ids of gold, raising every
per-query candidate hit count (while staying at most gold) does not decrease
the reported overall accuracy. -/
theorem claim7_monotonicity (gold cand1 cand2 : ResultSet)
    (hk1 : ∀ k, k ∈ keys cand1 ↔ k ∈ keys gold)
    (hk2 : ∀ k, k ∈ keys cand2 ↔ k ∈ keys gold)
    (hmono : ∀ q ∈ keys gold,
      hitCount cand1 q ≤ hitCount cand2 q ∧ hitCount cand2 q ≤ hitCount gold q)
    (r1 r2 : Report)
    (h1 : analyzeBlastOut gold cand1 = Except.ok r1)
    (h2 : analyzeBlastOut gold cand2 = Except.ok r2) :
    r1.overallAccuracy ≤ r2.overallAccuracy := by
  have hs1 : intersection gold cand1 = keys gold := intersection_eq_keys gold cand1 hk1
  have hs2 : intersection gold cand2 = keys gold := intersection_eq_keys gold cand2 hk2
  obtain ⟨hg1, hne1, hr1⟩ := analyze_ok_elim gold cand1 r1 h1
  obtain ⟨hg2, hne2, hr2⟩ := analyze_ok_elim gold cand2 r2 h2
  rw [hs1] at hne1 hr1
  rw [hs2] at hne2 hr2
  rw [hr1, hr2]
  show 1 - (sumMiss gold cand1 (keys gold) : Rat) / (sumGold gold (keys gold) : Rat) ≤
    1 - (sumMiss gold cand2 (keys gold) : Rat) / (sumGold gold (keys gold) : Rat)
  have hsm : sumMiss gold cand2 (keys gold) ≤ sumMiss gold cand1 (keys gold) :=
    sumMiss_mono gold cand1 cand2 (keys gold) (fun q hq => (hmono q hq).1)
  have hpos : (0 : Rat) < (sumGold gold (keys gold) : Rat) := by
    exact_mod_cast Nat.pos_of_ne_zero hne1
  have hdiv : (sumMiss gold cand2 (keys gold) : Rat) / (sumGold gold (keys gold) : Rat) ≤
      (sumMiss gold cand1 (keys gold) : Rat) / (sumGold gold (keys gold) : Rat) := by
    gcongr
  linarith

/-- Witness for claim C7, at a concrete input. -/
theorem claim7_witness :
    (⟨1, 2, 10, 4/5, 0, 0, 1⟩ : Report).overallAccuracy ≤
      (⟨1, 1, 10, 9/10, 0, 1, 1⟩ : Report).overallAccuracy :=
  claim7_monotonicity [("Q1", 10)] [("Q1", 8)] [("Q1", 9)]
    (fun _ => Iff.rfl) (fun _ => Iff.rfl) (by decide) _ _ analyzeEvalB analyzeEvalA

/-- Claim C8, counterexample: for the input a.b.txt the derived output path is
a.xml, not the a.b.xml the claim requires (everything from the first dot is
discarded, not only the final extension). -/
theorem claim8_counterexample :
    filenameXML "a.b.txt".toList = "a.xml".toList ∧
    filenameXML "a.b.txt".toList ≠ "a.b.xml".toList := by
  constructor
  · decide
  · decide

/-- Claim C8 as amended: with the output argument omitted, the output path
passed to the external convert operation is the prefix of the input path
before its FIRST dot, with .xml appended; an input whose name contains more
than one dot keeps only the part before the first dot. -/
theorem claim8_first_dot (input : List Char) :
    filenameXML input = input.takeWhile (fun c => c != '.') ++ ".xml".toList := by
  rw [filenameXML, filenameRoot_eq_takeWhile]

/-- Claim C9: every report the comparison produces satisfies
perfectQueryCount ≤ queriesAbove90Pct ≤ queriesAbove80Pct ≤ queryCount. -/
theorem claim9_counter_chain (gold comp : ResultSet) (r : Report)
    (h : analyzeBlastOut gold comp = Except.ok r) :
    r.perfectQueryCount ≤ r.queriesAbove90 ∧
    r.queriesAbove90 ≤ r.queriesAbove80 ∧
    r.queriesAbove80 ≤ r.queryCount := by
  obtain ⟨hgood, hne, hr⟩ := analyze_ok_elim gold comp r h
  rw [hr]
  have h1 := countPerfect_add_countBad_le_length gold comp (intersection gold comp)
  have h2 := countVeryBad_le_countBad gold comp (intersection gold comp)
  have h3 := countBad_le_length gold comp (intersection gold comp)
  have h4 := countVeryBad_le_length gold comp (intersection gold comp)
  refine ⟨?_, ?_, ?_⟩
  · show countPerfect gold comp (intersection gold comp) ≤
      (intersection gold comp).length - countBad gold comp (intersection gold comp)
    omega
  · show (intersection gold comp).length - countBad gold comp (intersection gold comp) ≤
      (intersection gold comp).length - countVeryBad gold comp (intersection gold comp)
    omega
  · show (intersection gold comp).length - countVeryBad gold comp (intersection gold comp) ≤
      (intersection gold comp).length
    omega

/-- Witness for claim C9, at a concrete input. -/
theorem claim9_witness :
    (⟨1, 1, 10, 9/10, 0, 1, 1⟩ : Report).perfectQueryCount ≤
        (⟨1, 1, 10, 9/10, 0, 1, 1⟩ : Report).queriesAbove90 ∧
    (⟨1, 1, 10, 9/10, 0, 1, 1⟩ : Report).queriesAbove90 ≤
        (⟨1, 1, 10, 9/10, 0, 1, 1⟩ : Report).queriesAbove80 ∧
    (⟨1, 1, 10, 9/10, 0, 1, 1⟩ : Report).queriesAbove80 ≤
        (⟨1, 1, 10, 9/10, 0, 1, 1⟩ : Report).queryCount :=
  claim9_counter_chain [("Q1", 10)] [("Q1", 9)] ⟨1, 1, 10, 9/10, 0, 1, 1⟩ analyzeEvalA

/-- Claim C10: every report the comparison produces satisfies
0 ≤ totalMiss ≤ totalGoldHits, and its overallAccuracy lies in [0, 1]. -/
theorem claim10_report_bounds (gold comp : ResultSet) (r : Report)
    (h : analyzeBlastOut gold comp = Except.ok r) :
    0 ≤ r.totalMiss ∧ r.totalMiss ≤ (r.totalGoldHits : Int) ∧
    0 ≤ r.overallAccuracy ∧ r.overallAccuracy ≤ 1 := by
  obtain ⟨hgood, hne, hr⟩ := analyze_ok_elim gold comp r h
  rw [hr]
  have h0 := sumMiss_nonneg gold comp (intersection gold comp) hgood
  have h1 := sumMiss_le_sumGold gold comp (intersection gold comp)
  have hpos : (0 : Rat) < (sumGold gold (intersection gold comp) : Rat) := by
    exact_mod_cast Nat.pos_of_ne_zero hne
  refine ⟨h0, h1, ?_, ?_⟩
  · show (0 : Rat) ≤ 1 - (sumMiss gold comp (intersection gold comp) : Rat) /
      (sumGold gold (intersection gold comp) : Rat)
    have hm1 : (sumMiss gold comp (intersection gold comp) : Rat) ≤
        (sumGold gold (intersection gold comp) : Rat) := by exact_mod_cast h1
    have := (div_le_one hpos).mpr hm1
    linarith
  · show 1 - (sumMiss gold comp (intersection gold comp) : Rat) /
      (sumGold gold (intersection gold comp) : Rat) ≤ 1
    have hm0 : (0 : Rat) ≤ (sumMiss gold comp (intersection gold comp) : Rat) := by
      exact_mod_cast h0
    have := div_nonneg hm0 hpos.le
    linarith

/-- Witness for claim C10, at a concrete input. -/
theorem claim10_witness :
    0 ≤ (⟨1, 1, 10, 9/10, 0, 1, 1⟩ : Report).totalMiss ∧
    (⟨1, 1, 10, 9/10, 0, 1, 1⟩ : Report).totalMiss ≤
        ((⟨1, 1, 10, 9/10, 0, 1, 1⟩ : Report).totalGoldHits : Int) ∧
    0 ≤ (⟨1, 1, 10, 9/10, 0, 1, 1⟩ : Report).overallAccuracy ∧
    (⟨1, 1, 10, 9/10, 0, 1, 1⟩ : Report).overallAccuracy ≤ 1 :=
  claim10_report_bounds [("Q1", 10)] [("Q1", 9)] ⟨1, 1, 10, 9/10, 0, 1, 1⟩ analyzeEvalA

end Mica
